import Mathlib

/-!
Levels of Immersion: the Rift stereo pipeline of `Minimal/main.cpp`.

A shallow embedding of the mode state machine (`RiftApp::update`), of the
render-target layout computed by the `RiftApp` constructor, of the per-frame
operation sequence of `RiftApp::draw` and of the pose matrices of
`ovr::toGlm`, followed by the theorems proved about them.  Floating-point
rounding is not modelled.

Conventions of the embedding

* C++ `bool` globals are fields of the record `Globals`; every function that
  writes a global takes the record and returns the new one.
* `uint32_t` values are `Nat` reduced modulo `2 ^ 32`, `int` values are `Int`.
* Console output (`cout << ...`) has no effect on the state and is left out.
* Calls into the Oculus SDK and OpenGL are recorded, in order, as a list of
  `DrawOp` values; what the device returns is an argument of the embedding.
-/

set_option linter.dupNamespace false

namespace LevelsOfImmersion

/-! ## Global mode flags (main.cpp, lines 72-91) -/

/-- The custom global variables of main.cpp. -/
structure Globals where
  cube_size_up : Bool
  cube_size_down : Bool
  cube_size_reset : Bool
  iod_up : Bool
  iod_down : Bool
  iod_reset : Bool
  x1 : Bool
  x2 : Bool
  x3 : Bool
  x4 : Bool
  a1 : Bool
  a2 : Bool
  a3 : Bool
  a4 : Bool
  a5 : Bool
  deriving DecidableEq, Repr

/-- The initial values the globals are declared with. -/
def Globals.initial : Globals :=
  { cube_size_up := false, cube_size_down := false, cube_size_reset := false,
    iod_up := false, iod_down := false, iod_reset := false,
    x1 := true, x2 := false, x3 := false, x4 := false,
    a1 := true, a2 := false, a3 := false, a4 := false, a5 := false }

/-! ## Controller input (OVR_CAPI.h) -/

/-- Button bit of the A button in `ovrInputState::Buttons` (OVR_CAPI.h). -/
def ovrButton_A : Nat := 0x00000001
/-- Button bit of the right thumbstick press (OVR_CAPI.h). -/
def ovrButton_RThumb : Nat := 0x00000004
/-- Button bit of the X button (OVR_CAPI.h). -/
def ovrButton_X : Nat := 0x00000100
/-- Button bit of the left thumbstick press (OVR_CAPI.h). -/
def ovrButton_LThumb : Nat := 0x00000400

/-- The fields of `ovrInputState` that `RiftApp::update` reads.  `Buttons` is
the 32-bit button word.  The thumbstick x axes are floats in the source; update
only compares them with zero, so an exact signed reading stands for them. -/
structure ovrInputState where
  Buttons : Nat
  ThumbstickLeftX : Int
  ThumbstickRightX : Int
  deriving DecidableEq, Repr

/-- The macro `OVR_SUCCESS(result)` of OVR_ErrorCode.h: `result >= 0`. -/
def OVR_SUCCESS (result : Int) : Bool := decide (0 ≤ result)

/-- C++ conversion of an integer to `bool`: nonzero is true. -/
def toBool (n : Nat) : Bool := decide (n ≠ 0)

/-! ## `RiftApp::update` (main.cpp, lines 576-702) -/

/-- Lines 598-609: the interocular-distance flags from the right thumbstick. -/
def updateIod (g : Globals) (inputState : ovrInputState) : Globals :=
  if inputState.ThumbstickRightX > 0 then { g with iod_up := true }
  else if inputState.ThumbstickRightX < 0 then { g with iod_down := true }
  else if toBool (inputState.Buttons &&& ovrButton_RThumb) then { g with iod_reset := true }
  else g

/-- Lines 613-626: the cube-size flags from the left thumbstick.  The last test
is the source's `inputState.Buttons && ovrButton_LThumb`, a logical and of two
integers converted to `bool`. -/
def updateCubeSize (g : Globals) (inputState : ovrInputState) : Globals :=
  if inputState.ThumbstickLeftX < 0 then { g with cube_size_down := true }
  else if inputState.ThumbstickLeftX > 0 then { g with cube_size_up := true }
  else if toBool inputState.Buttons && toBool ovrButton_LThumb then
    { g with cube_size_reset := true }
  else g

/-- Lines 633-672: the body of the `Buttons == ovrButton_A` branch. -/
def cycleA (g : Globals) : Globals :=
  if g.a1 then { g with a1 := false, a2 := true }
  else if g.a2 then { g with a2 := false, a3 := true }
  else if g.a3 then { g with a3 := false, a4 := true }
  else if g.a4 then { g with a4 := false, a5 := true }
  else if g.a5 then { g with a1 := true, a5 := false }
  else g

/-- Lines 680-699: the body of the `Buttons == ovrButton_X` branch. -/
def cycleX (g : Globals) : Globals :=
  if g.x1 then { g with x1 := false, x2 := true }
  else if g.x2 then { g with x2 := false, x3 := true }
  else if g.x3 then { g with x3 := false, x4 := true }
  else if g.x4 then { g with x4 := false, x1 := true }
  else g

/-- Lines 630-700: the mode cycling on the exact button word. -/
def updateModes (g : Globals) (inputState : ovrInputState) : Globals :=
  if inputState.Buttons = ovrButton_A then cycleA g
  else if inputState.Buttons = ovrButton_X then cycleX g
  else g

/-- The method `RiftApp::update`.  `result` and `inputState` are what
`ovr_GetInputState` returned and wrote for this call. -/
def RiftApp.update (g : Globals) (result : Int) (inputState : ovrInputState) : Globals :=
  let g0 : Globals :=
    { g with cube_size_up := false, cube_size_down := false, cube_size_reset := false,
             iod_up := false, iod_down := false, iod_reset := false }
  if OVR_SUCCESS result then
    updateModes (updateCubeSize (updateIod g0 inputState) inputState) inputState
  else g0

/-- The input one frame of `GlfwApp::run` hands to update: the result code of
`ovr_GetInputState` and the input state it wrote. -/
structure FrameInput where
  result : Int
  inputState : ovrInputState
  deriving DecidableEq, Repr

/-- The update calls of successive iterations of the loop in `GlfwApp::run`
(lines 234-240), one per frame, oldest frame first.  Neither `draw` nor
`finishFrame` writes a global. -/
def runUpdates (g : Globals) : List FrameInput → Globals
  | [] => g
  | f :: fs => runUpdates (RiftApp.update g f.result f.inputState) fs

/-! ## Reading the flags as modes -/

/-- The five stereo modes, named as in the comments on `a1..a5`. -/
inductive StereoMode where
  | Stereo | Mono | LeftOnly | RightOnly | Inverted
  deriving DecidableEq, Repr

/-- The four scene-visibility modes, named as in the comments on `x1..x4`. -/
inductive SceneVisibility where
  | FullScene | SkyboxStereo | SkyboxMono | AlternateSkybox
  deriving DecidableEq, Repr

/-- The stereo mode a flag vector denotes: defined when exactly one of
`a1..a5` is set. -/
def stereoMode (g : Globals) : Option StereoMode :=
  match g.a1, g.a2, g.a3, g.a4, g.a5 with
  | true, false, false, false, false => some .Stereo
  | false, true, false, false, false => some .Mono
  | false, false, true, false, false => some .LeftOnly
  | false, false, false, true, false => some .RightOnly
  | false, false, false, false, true => some .Inverted
  | _, _, _, _, _ => none

/-- The visibility mode a flag vector denotes: defined when exactly one of
`x1..x4` is set. -/
def sceneVisibility (g : Globals) : Option SceneVisibility :=
  match g.x1, g.x2, g.x3, g.x4 with
  | true, false, false, false => some .FullScene
  | false, true, false, false => some .SkyboxStereo
  | false, false, true, false => some .SkyboxMono
  | false, false, false, true => some .AlternateSkybox
  | _, _, _, _ => none

/-- Ring successor of a stereo mode. -/
def StereoMode.next : StereoMode → StereoMode
  | .Stereo => .Mono
  | .Mono => .LeftOnly
  | .LeftOnly => .RightOnly
  | .RightOnly => .Inverted
  | .Inverted => .Stereo

/-- Ring successor of a visibility mode. -/
def SceneVisibility.next : SceneVisibility → SceneVisibility
  | .FullScene => .SkyboxStereo
  | .SkyboxStereo => .SkyboxMono
  | .SkyboxMono => .AlternateSkybox
  | .AlternateSkybox => .FullScene

/-- Number of flags set in a list of flags. -/
def countTrue (bs : List Bool) : Nat := (bs.filter (fun b => b)).length

/-- Exactly one of `a1..a5` is true. -/
def oneHotA (g : Globals) : Prop := countTrue [g.a1, g.a2, g.a3, g.a4, g.a5] = 1

/-- Exactly one of `x1..x4` is true. -/
def oneHotX (g : Globals) : Prop := countTrue [g.x1, g.x2, g.x3, g.x4] = 1

instance (g : Globals) : Decidable (oneHotA g) := by unfold oneHotA; infer_instance
instance (g : Globals) : Decidable (oneHotX g) := by unfold oneHotX; infer_instance

/-- A stereo trigger event: the input read succeeds with `Buttons == ovrButton_A`. -/
def FrameInput.isTriggerA (f : FrameInput) : Prop :=
  OVR_SUCCESS f.result = true ∧ f.inputState.Buttons = ovrButton_A

/-- A visibility trigger event: the input read succeeds with `Buttons == ovrButton_X`. -/
def FrameInput.isTriggerX (f : FrameInput) : Prop :=
  OVR_SUCCESS f.result = true ∧ f.inputState.Buttons = ovrButton_X

instance (f : FrameInput) : Decidable f.isTriggerA := by
  unfold FrameInput.isTriggerA; infer_instance
instance (f : FrameInput) : Decidable f.isTriggerX := by
  unfold FrameInput.isTriggerX; infer_instance

/-! ## Small vector types and the eye index -/

/-- The enumeration `ovrEyeType`: `ovrEye_Left = 0`, `ovrEye_Right = 1`
(`ovrEye_Count = 2`). -/
inductive ovrEyeType where
  | ovrEye_Left
  | ovrEye_Right
  deriving DecidableEq, Repr

open ovrEyeType

/-- A C array of length `ovrEye_Count`, indexed by the eye. -/
structure PerEye (α : Type) where
  Left : α
  Right : α
  deriving DecidableEq, Repr

/-- Array read `arr[eye]`. -/
def PerEye.get {α : Type} (arr : PerEye α) : ovrEyeType → α
  | ovrEye_Left => arr.Left
  | ovrEye_Right => arr.Right

/-- Array write `arr[eye] = v`. -/
def PerEye.set {α : Type} (arr : PerEye α) (eye : ovrEyeType) (v : α) : PerEye α :=
  match eye with
  | ovrEye_Left => { arr with Left := v }
  | ovrEye_Right => { arr with Right := v }

/-- The loop `ovr::for_each_eye` (lines 351-358): the function is applied to
the left eye and then to the right eye. -/
def ovr.for_each_eye {σ : Type} (function : ovrEyeType → σ → σ) (s : σ) : σ :=
  [ovrEye_Left, ovrEye_Right].foldl (fun acc eye => function eye acc) s

/-- The struct `ovrSizei`: two `int` fields. -/
structure ovrSizei where
  w : Int
  h : Int
  deriving DecidableEq, Repr

/-- The struct `ovrVector2i`: two `int` fields. -/
structure ovrVector2i where
  x : Int
  y : Int
  deriving DecidableEq, Repr

/-- The struct `ovrRecti`: position and size of a viewport. -/
structure ovrRecti where
  Pos : ovrVector2i
  Size : ovrSizei
  deriving DecidableEq, Repr

/-- The type `glm::uvec2`: two `uint32_t` components. -/
structure uvec2 where
  x : Nat
  y : Nat
  deriving DecidableEq, Repr

/-- Conversion of an `int` to `uint32_t`: reduction modulo `2 ^ 32`. -/
def toUInt32 (i : Int) : Nat := (i % 2 ^ 32).toNat

/-- Conversion `(int)` of a `uint32_t`: the two's-complement reading. -/
def toInt32 (n : Nat) : Int :=
  if n % 2 ^ 32 < 2 ^ 31 then ((n % 2 ^ 32 : Nat) : Int) else ((n % 2 ^ 32 : Nat) : Int) - 2 ^ 32

/-- The value is representable as a C `int`. -/
def isInt32 (i : Int) : Prop := -(2 ^ 31) ≤ i ∧ i < 2 ^ 31

instance (i : Int) : Decidable (isInt32 i) := by unfold isInt32; infer_instance

/-! ## The render-target layout of the `RiftApp` constructor (lines 473-510) -/

/-- The members the constructor's layout computation writes. -/
structure RenderTargetLayout where
  Viewport : PerEye ovrRecti
  _renderTargetSize : uvec2
  _mirrorSize : uvec2
  deriving DecidableEq, Repr

/-- Lines 498-504, the layout part of the lambda the constructor runs for
each eye.  `eyeSize` is what `ovr_GetFovTextureSize` returned for the eye. -/
def ctorEye (eyeSize : PerEye ovrSizei) (eye : ovrEyeType) (s : RenderTargetLayout) :
    RenderTargetLayout :=
  let sz := eyeSize.get eye
  let vp : ovrRecti := { Size := sz, Pos := { x := toInt32 s._renderTargetSize.x, y := 0 } }
  let y' := max s._renderTargetSize.y (toUInt32 sz.h)
  let x' := (s._renderTargetSize.x + toUInt32 sz.w) % 2 ^ 32
  { s with Viewport := s.Viewport.set eye vp, _renderTargetSize := { x := x', y := y' } }

/-- The all-zero rectangle `memset` leaves in `_sceneLayer.Viewport`. -/
def ovrRecti.zero : ovrRecti := { Pos := { x := 0, y := 0 }, Size := { w := 0, h := 0 } }

/-- The layout computed by the constructor `RiftApp::RiftApp`: `rts0` is the
value `_renderTargetSize` holds when the body starts, `eyeSize` the per-eye
texture sizes the device reports.  `_mirrorSize /= 2` divides each unsigned
component by two. -/
def RiftApp.RiftApp (rts0 : uvec2) (eyeSize : PerEye ovrSizei) : RenderTargetLayout :=
  let s0 : RenderTargetLayout :=
    { Viewport := { Left := ovrRecti.zero, Right := ovrRecti.zero },
      _renderTargetSize := rts0, _mirrorSize := { x := 0, y := 0 } }
  let s := ovr.for_each_eye (ctorEye eyeSize) s0
  { s with _mirrorSize := { x := s._renderTargetSize.x / 2, y := s._renderTargetSize.y / 2 } }

/-- The horizontal pixel range `[Pos.x, Pos.x + Size.w)` a viewport covers. -/
def ovrRecti.coversX (vp : ovrRecti) (x : Int) : Prop := vp.Pos.x ≤ x ∧ x < vp.Pos.x + vp.Size.w

instance (vp : ovrRecti) (x : Int) : Decidable (vp.coversX x) := by
  unfold ovrRecti.coversX; infer_instance

/-! ## Poses and matrices (glm, `ovr::toGlm`)

Matrices are the mathematical 4x4 matrices over an exact field `K`: entry
`m i j` is row `i`, column `j`, which glm stores as `m[j][i]`.  The source
computes in binary32 floating point; the definitions below keep the formulas
of glm and do not model rounding.  The theorems use these matrices as the
values handed from one call to the next and state no numerical property of
what glm computes. -/

/-- The type `glm::mat4`. -/
abbrev mat4 (K : Type) := Matrix (Fin 4) (Fin 4) K

/-- The struct `ovrVector3f`. -/
structure ovrVector3f (K : Type) where
  x : K
  y : K
  z : K
  deriving DecidableEq, Repr

/-- The struct `ovrQuatf`; `glm::make_quat` copies the four components. -/
structure ovrQuatf (K : Type) where
  x : K
  y : K
  z : K
  w : K
  deriving DecidableEq, Repr

/-- The struct `ovrPosef`. -/
structure ovrPosef (K : Type) where
  Orientation : ovrQuatf K
  Position : ovrVector3f K
  deriving DecidableEq, Repr

/-- The function `glm::mat4_cast`: the rotation matrix of a quaternion. -/
def glm.mat4_cast {K : Type} [Field K] (q : ovrQuatf K) : mat4 K :=
  !![1 - 2 * (q.y * q.y + q.z * q.z), 2 * (q.x * q.y - q.w * q.z), 2 * (q.x * q.z + q.w * q.y), 0;
     2 * (q.x * q.y + q.w * q.z), 1 - 2 * (q.x * q.x + q.z * q.z), 2 * (q.y * q.z - q.w * q.x), 0;
     2 * (q.x * q.z - q.w * q.y), 2 * (q.y * q.z + q.w * q.x), 1 - 2 * (q.x * q.x + q.y * q.y), 0;
     0, 0, 0, 1]

/-- The function `glm::translate(m, v)`: the last column of the result is
`m[0] * v.x + m[1] * v.y + m[2] * v.z + m[3]`, the other columns are those
of `m`. -/
def glm.translate {K : Type} [Field K] (m : mat4 K) (v : ovrVector3f K) : mat4 K :=
  fun i j => if j = 3 then m i 0 * v.x + m i 1 * v.y + m i 2 * v.z + m i 3 else m i j

/-- The function `glm::inverse` on `mat4`: the matrix of cofactors, transposed,
times one over the determinant. -/
def glm.inverse {K : Type} [Field K] (m : mat4 K) : mat4 K :=
  (Matrix.det m)⁻¹ • Matrix.adjugate m

/-- The overload `ovr::toGlm(const ovrPosef &)` (lines 384-388); `mat4()` is
the identity matrix. -/
def ovr.toGlm {K : Type} [Field K] (op : ovrPosef K) : mat4 K :=
  let orientation : mat4 K := glm.mat4_cast op.Orientation
  let translation : mat4 K := glm.translate (1 : mat4 K) op.Position
  translation * orientation

/-! ## `RiftApp::draw` (lines 714-808) -/

/-- What the scene receives: the arguments of `cubeScene->render`. -/
structure SceneRender (K : Type) where
  projection : mat4 K
  view : mat4 K
  isLeft : Bool
  deriving DecidableEq

/-- The method `ExampleApp::renderScene` (lines 1002-1004): the scene is
rendered with the inverse of the head pose as its view matrix. -/
def ExampleApp.renderScene {K : Type} [Field K] (projection headPose : mat4 K) (isLeft : Bool) :
    SceneRender K :=
  { projection := projection, view := glm.inverse headPose, isLeft := isLeft }

/-- The calls `RiftApp::draw` makes, in the order of the source, with the
arguments the theorems are about.  `glBindFramebuffer` and
`glFramebufferTexture2D` are split by their target argument
(`GL_DRAW_FRAMEBUFFER`, `GL_READ_FRAMEBUFFER`); `glViewport` carries, next to
the rectangle passed, the eye whose rectangle it is. -/
inductive DrawOp (K : Type) where
  | ovr_GetPredictedDisplayTime
  | ovr_GetTrackingState
  | ovr_GetEyePoses (frame : Nat)
  | ovr_GetTextureSwapChainCurrentIndex
  | ovr_GetTextureSwapChainBufferGL (index : Int)
  | glBindDrawFramebuffer (fbo : Nat)
  | glDrawFramebufferTexture2D (texId : Nat)
  | glClear
  | glViewport (eye : ovrEyeType) (vp : ovrRecti)
  | renderScene (projection headPose : mat4 K) (isLeft : Bool)
  | ovr_CommitTextureSwapChain
  | ovr_SubmitFrame (frame : Nat) (RenderPose : PerEye (ovrPosef K))
  | ovr_GetMirrorTextureBufferGL
  | glBindReadFramebuffer (fbo : Nat)
  | glReadFramebufferTexture2D (texId : Nat)
  | glBlitFramebuffer (srcX0 srcY0 srcX1 srcY1 dstX0 dstY0 dstX1 dstY1 : Nat)
  deriving DecidableEq

/-- The members of `RiftApp` that `draw` reads or writes. -/
structure RiftAppMembers (K : Type) where
  _fbo : Nat
  _mirrorFbo : Nat
  _eyeProjections : PerEye (mat4 K)
  Viewport : PerEye ovrRecti
  RenderPose : PerEye (ovrPosef K)
  _mirrorSize : uvec2
  frame : Nat
  deriving DecidableEq

/-- What the device hands back during one call of `draw`: the eye poses
written by `ovr_GetEyePoses`, and result code and output of each query whose
result `draw` could test. -/
structure DeviceFrame (K : Type) where
  eyePoses : PerEye (ovrPosef K)
  curIndexResult : Int
  curIndex : Int
  bufferResult : Int
  curTexId : Nat
  commitResult : Int
  submitResult : Int
  mirrorResult : Int
  mirrorTextureId : Nat
  deriving DecidableEq

/-- Lines 765-793: the scene-renderer calls of the per-eye lambda, chosen by
the stereo flags. -/
def drawEyeScene {K : Type} [Field K] (g : Globals) (app : RiftAppMembers K)
    (eyePoses : PerEye (ovrPosef K)) (eye : ovrEyeType) : List (DrawOp K) :=
  if g.a1 then
    if eye = ovrEye_Left then
      [.renderScene (app._eyeProjections.get ovrEye_Left)
        (ovr.toGlm (eyePoses.get ovrEye_Left)) true]
    else
      [.renderScene (app._eyeProjections.get ovrEye_Right)
        (ovr.toGlm (eyePoses.get ovrEye_Right)) false]
  else if g.a2 then
    [.renderScene (app._eyeProjections.get eye) (ovr.toGlm (eyePoses.get ovrEye_Left)) true]
  else if g.a3 then
    if eye = ovrEye_Left then
      [.renderScene (app._eyeProjections.get ovrEye_Left)
        (ovr.toGlm (eyePoses.get ovrEye_Left)) true]
    else []
  else if g.a4 then
    if eye = ovrEye_Right then
      [.renderScene (app._eyeProjections.get ovrEye_Right)
        (ovr.toGlm (eyePoses.get ovrEye_Right)) false]
    else []
  else if g.a5 then
    (if eye = ovrEye_Left then
      [.renderScene (app._eyeProjections.get ovrEye_Right)
        (ovr.toGlm (eyePoses.get ovrEye_Right)) false]
     else []) ++
    (if eye = ovrEye_Right then
      [.renderScene (app._eyeProjections.get ovrEye_Left)
        (ovr.toGlm (eyePoses.get ovrEye_Left)) true]
     else [])
  else []

/-- Lines 760-795: the lambda `draw` runs for each eye, on the pair of the
object and the operations issued so far. -/
def drawEye {K : Type} [Field K] (g : Globals) (eyePoses : PerEye (ovrPosef K))
    (eye : ovrEyeType) (s : RiftAppMembers K × List (DrawOp K)) : RiftAppMembers K × List (DrawOp K) :=
  let app := s.1
  let vp := app.Viewport.get eye
  let app' : RiftAppMembers K := { app with RenderPose := app.RenderPose.set eye (eyePoses.get eye) }
  (app', s.2 ++ [DrawOp.glViewport eye vp] ++ drawEyeScene g app' eyePoses eye)

/-- The method `RiftApp::draw`: the object after the call and the operations
issued, in order.  No result code of a device call is tested. -/
def RiftApp.draw {K : Type} [Field K] (g : Globals) (app : RiftAppMembers K) (dev : DeviceFrame K) :
    RiftAppMembers K × List (DrawOp K) :=
  let ops0 : List (DrawOp K) :=
    [.ovr_GetPredictedDisplayTime, .ovr_GetTrackingState, .ovr_GetEyePoses app.frame,
     .ovr_GetTextureSwapChainCurrentIndex, .ovr_GetTextureSwapChainBufferGL dev.curIndex,
     .glBindDrawFramebuffer app._fbo, .glDrawFramebufferTexture2D dev.curTexId, .glClear]
  let s := ovr.for_each_eye (drawEye g dev.eyePoses) (app, ops0)
  (s.1, s.2 ++
    [.glDrawFramebufferTexture2D 0, .glBindDrawFramebuffer 0, .ovr_CommitTextureSwapChain,
     .ovr_SubmitFrame s.1.frame s.1.RenderPose, .ovr_GetMirrorTextureBufferGL,
     .glBindReadFramebuffer s.1._mirrorFbo, .glReadFramebufferTexture2D dev.mirrorTextureId,
     .glBlitFramebuffer 0 0 s.1._mirrorSize.x s.1._mirrorSize.y
        0 s.1._mirrorSize.y s.1._mirrorSize.x 0,
     .glBindReadFramebuffer 0])

/-! ## Observing the operation sequence -/

/-- The arguments of one call of the virtual `renderScene`. -/
structure RenderSceneCall (K : Type) where
  projection : mat4 K
  headPose : mat4 K
  isLeft : Bool
  deriving DecidableEq

/-- The scene-renderer calls of an operation sequence, each paired with the
eye whose viewport was the one set by the latest `glViewport` before it
(`none` when no viewport had been set). -/
def renderSceneCallsFrom {K : Type} :
    Option ovrEyeType → List (DrawOp K) → List (Option ovrEyeType × RenderSceneCall K)
  | _, [] => []
  | _, .glViewport eye _ :: ops => renderSceneCallsFrom (some eye) ops
  | cur, .renderScene projection headPose isLeft :: ops =>
      (cur, { projection := projection, headPose := headPose, isLeft := isLeft }) ::
        renderSceneCallsFrom cur ops
  | cur, _ :: ops => renderSceneCallsFrom cur ops

/-- All scene-renderer calls of one `draw`, in order, with their viewport. -/
def renderSceneCalls {K : Type} [Field K] (g : Globals) (app : RiftAppMembers K)
    (dev : DeviceFrame K) : List (Option ovrEyeType × RenderSceneCall K) :=
  renderSceneCallsFrom none (RiftApp.draw g app dev).2

/-- The scene-renderer calls of one `draw` made while the viewport of `eye`
is set. -/
def renderSceneCallsIn {K : Type} [Field K] (g : Globals) (app : RiftAppMembers K)
    (dev : DeviceFrame K) (eye : ovrEyeType) : List (RenderSceneCall K) :=
  ((renderSceneCalls g app dev).filter (fun c => decide (c.1 = some eye))).map Prod.snd

/-- What the scene receives for a call of `renderScene`. -/
def RenderSceneCall.received {K : Type} [Field K] (c : RenderSceneCall K) : SceneRender K :=
  ExampleApp.renderScene c.projection c.headPose c.isLeft

/-- The other eye. -/
def ovrEyeType.other : ovrEyeType → ovrEyeType
  | ovrEye_Left => ovrEye_Right
  | ovrEye_Right => ovrEye_Left

/-! ## Concrete inputs used to evaluate the definitions -/

/-- A successful input read with only the A button down, sticks centred. -/
def frameA : FrameInput :=
  { result := 0, inputState := { Buttons := ovrButton_A, ThumbstickLeftX := 0, ThumbstickRightX := 0 } }

/-- A successful input read with only the X button down, sticks centred. -/
def frameX : FrameInput :=
  { result := 0, inputState := { Buttons := ovrButton_X, ThumbstickLeftX := 0, ThumbstickRightX := 0 } }

/-- The flags of a given stereo mode, everything else as initially. -/
def Globals.ofStereoMode (m : StereoMode) : Globals :=
  { Globals.initial with
    a1 := decide (m = .Stereo), a2 := decide (m = .Mono), a3 := decide (m = .LeftOnly),
    a4 := decide (m = .RightOnly), a5 := decide (m = .Inverted) }

/-- Eye texture sizes of 960x1080 for both eyes. -/
def eyeSize960 : PerEye ovrSizei :=
  { Left := { w := 960, h := 1080 }, Right := { w := 960, h := 1080 } }

/-- A pose without rotation at the given position. -/
def poseAt (x y z : ℚ) : ovrPosef ℚ :=
  { Orientation := { x := 0, y := 0, z := 0, w := 1 }, Position := { x := x, y := y, z := z } }

/-- A sample object: distinct projections for the two eyes, the viewports of
two 960x1080 eyes. -/
def sampleApp : RiftAppMembers ℚ :=
  { _fbo := 1, _mirrorFbo := 2,
    _eyeProjections := { Left := Matrix.diagonal ![1, 1, 1, 1], Right := Matrix.diagonal ![2, 1, 1, 1] },
    Viewport := (RiftApp.RiftApp { x := 0, y := 0 } eyeSize960).Viewport,
    RenderPose := { Left := poseAt 0 0 0, Right := poseAt 0 0 0 },
    _mirrorSize := (RiftApp.RiftApp { x := 0, y := 0 } eyeSize960)._mirrorSize,
    frame := 1 }

/-- A sample device answer: the eyes 64 mm apart, every query succeeding. -/
def sampleDevice : DeviceFrame ℚ :=
  { eyePoses := { Left := poseAt (-32 / 1000) 0 0, Right := poseAt (32 / 1000) 0 0 },
    curIndexResult := 0, curIndex := 0, bufferResult := 0, curTexId := 7,
    commitResult := 0, submitResult := 0, mirrorResult := 0, mirrorTextureId := 9 }

/-- The call the sample draw makes under the right viewport in Mono mode. -/
def monoRightCall : RenderSceneCall ℚ :=
  { projection := sampleApp._eyeProjections.get ovrEye_Right,
    headPose := ovr.toGlm (sampleDevice.eyePoses.get ovrEye_Left), isLeft := true }

/-! ## Further observations on update and draw -/

/-- The stereo flags `a1..a5` of a flag record. -/
def Globals.aFlags (g : Globals) : List Bool := [g.a1, g.a2, g.a3, g.a4, g.a5]

/-- The visibility flags `x1..x4` of a flag record. -/
def Globals.xFlags (g : Globals) : List Bool := [g.x1, g.x2, g.x3, g.x4]

/-- The operation reads the current swap-chain index. -/
def DrawOp.isAcquire {K : Type} : DrawOp K → Bool
  | .ovr_GetTextureSwapChainCurrentIndex => true
  | _ => false

/-- The operation is a call of the scene renderer. -/
def DrawOp.isRenderScene {K : Type} : DrawOp K → Bool
  | .renderScene _ _ _ => true
  | _ => false

/-- The operation commits the swap chain. -/
def DrawOp.isCommit {K : Type} : DrawOp K → Bool
  | .ovr_CommitTextureSwapChain => true
  | _ => false

/-- The operation is `ovr_SubmitFrame`. -/
def DrawOp.isSubmit {K : Type} : DrawOp K → Bool
  | .ovr_SubmitFrame _ _ => true
  | _ => false

/-- The operation is the mirror blit `glBlitFramebuffer`. -/
def DrawOp.isBlit {K : Type} : DrawOp K → Bool
  | .glBlitFramebuffer _ _ _ _ _ _ _ _ => true
  | _ => false

/-- One of the swap-chain queries of `draw` returned a failure code. -/
def DeviceFrame.queryFailed {K : Type} (dev : DeviceFrame K) : Bool :=
  !OVR_SUCCESS dev.curIndexResult || !OVR_SUCCESS dev.bufferResult

/-- The sample device answer with both swap-chain queries failing. -/
def failedQueryDevice : DeviceFrame ℚ :=
  { sampleDevice with curIndexResult := -1, bufferResult := -1 }

/-! ## Lemmas on the mode state machine -/

theorem update_success (g : Globals) (f : FrameInput) (h : OVR_SUCCESS f.result = true) :
    RiftApp.update g f.result f.inputState =
      updateModes (updateCubeSize (updateIod
        { g with cube_size_up := false, cube_size_down := false, cube_size_reset := false,
                 iod_up := false, iod_down := false, iod_reset := false } f.inputState)
        f.inputState) f.inputState := by
  simp [RiftApp.update, h]

theorem stereoMode_updateCubeSize (g : Globals) (i : ovrInputState) :
    stereoMode (updateCubeSize g i) = stereoMode g := by
  unfold updateCubeSize; split_ifs <;> rfl

theorem stereoMode_updateIod (g : Globals) (i : ovrInputState) :
    stereoMode (updateIod g i) = stereoMode g := by
  unfold updateIod; split_ifs <;> rfl

theorem sceneVisibility_updateCubeSize (g : Globals) (i : ovrInputState) :
    sceneVisibility (updateCubeSize g i) = sceneVisibility g := by
  unfold updateCubeSize; split_ifs <;> rfl

theorem sceneVisibility_updateIod (g : Globals) (i : ovrInputState) :
    sceneVisibility (updateIod g i) = sceneVisibility g := by
  unfold updateIod; split_ifs <;> rfl

theorem stereoMode_cycleA (g : Globals) (m : StereoMode) (h : stereoMode g = some m) :
    stereoMode (cycleA g) = some m.next := by
  obtain ⟨c1, c2, c3, i1, i2, i3, x1, x2, x3, x4, a1, a2, a3, a4, a5⟩ := g
  cases a1 <;> cases a2 <;> cases a3 <;> cases a4 <;> cases a5 <;>
    simp [stereoMode] at h <;> subst h <;> rfl

theorem sceneVisibility_cycleX (g : Globals) (v : SceneVisibility)
    (h : sceneVisibility g = some v) : sceneVisibility (cycleX g) = some v.next := by
  obtain ⟨c1, c2, c3, i1, i2, i3, x1, x2, x3, x4, a1, a2, a3, a4, a5⟩ := g
  cases x1 <;> cases x2 <;> cases x3 <;> cases x4 <;>
    simp [sceneVisibility] at h <;> subst h <;> rfl

theorem stereoMode_cycleX (g : Globals) : stereoMode (cycleX g) = stereoMode g := by
  unfold cycleX; split_ifs <;> rfl

theorem sceneVisibility_cycleA (g : Globals) : sceneVisibility (cycleA g) = sceneVisibility g := by
  unfold cycleA; split_ifs <;> rfl

theorem ovrButton_X_ne_A : ovrButton_X ≠ ovrButton_A := by decide

/-- One stereo trigger moves the stereo mode to its ring successor. -/
theorem stereoMode_update_triggerA (g : Globals) (f : FrameInput) (m : StereoMode)
    (hf : f.isTriggerA) (h : stereoMode g = some m) :
    stereoMode (RiftApp.update g f.result f.inputState) = some m.next := by
  rw [update_success g f hf.1]
  unfold updateModes
  rw [if_pos hf.2]
  apply stereoMode_cycleA
  rw [stereoMode_updateCubeSize, stereoMode_updateIod]
  exact h

/-- One visibility trigger moves the visibility mode to its ring successor. -/
theorem sceneVisibility_update_triggerX (g : Globals) (f : FrameInput) (v : SceneVisibility)
    (hf : f.isTriggerX) (h : sceneVisibility g = some v) :
    sceneVisibility (RiftApp.update g f.result f.inputState) = some v.next := by
  rw [update_success g f hf.1]
  unfold updateModes
  rw [if_neg (by rw [hf.2]; exact ovrButton_X_ne_A), if_pos hf.2]
  apply sceneVisibility_cycleX
  rw [sceneVisibility_updateCubeSize, sceneVisibility_updateIod]
  exact h

theorem oneHotA_iff (g : Globals) : oneHotA g ↔ ∃ m, stereoMode g = some m := by
  obtain ⟨c1, c2, c3, i1, i2, i3, x1, x2, x3, x4, a1, a2, a3, a4, a5⟩ := g
  cases a1 <;> cases a2 <;> cases a3 <;> cases a4 <;> cases a5 <;>
    simp [oneHotA, countTrue, stereoMode]

theorem oneHotX_iff (g : Globals) : oneHotX g ↔ ∃ v, sceneVisibility g = some v := by
  obtain ⟨c1, c2, c3, i1, i2, i3, x1, x2, x3, x4, a1, a2, a3, a4, a5⟩ := g
  cases x1 <;> cases x2 <;> cases x3 <;> cases x4 <;>
    simp [oneHotX, countTrue, sceneVisibility]

/-- Every call of update keeps the stereo flags one-hot. -/
theorem oneHotA_update (g : Globals) (result : Int) (i : ovrInputState) (h : oneHotA g) :
    oneHotA (RiftApp.update g result i) := by
  rw [oneHotA_iff] at h ⊢
  obtain ⟨m, hm⟩ := h
  unfold RiftApp.update
  simp only
  split_ifs
  · unfold updateModes
    split_ifs
    · refine ⟨m.next, stereoMode_cycleA _ _ ?_⟩
      rw [stereoMode_updateCubeSize, stereoMode_updateIod]
      exact hm
    · refine ⟨m, ?_⟩
      rw [stereoMode_cycleX, stereoMode_updateCubeSize, stereoMode_updateIod]
      exact hm
    · refine ⟨m, ?_⟩
      rw [stereoMode_updateCubeSize, stereoMode_updateIod]
      exact hm
  · exact ⟨m, hm⟩

/-- Every call of update keeps the visibility flags one-hot. -/
theorem oneHotX_update (g : Globals) (result : Int) (i : ovrInputState) (h : oneHotX g) :
    oneHotX (RiftApp.update g result i) := by
  rw [oneHotX_iff] at h ⊢
  obtain ⟨v, hv⟩ := h
  unfold RiftApp.update
  simp only
  split_ifs
  · unfold updateModes
    split_ifs
    · refine ⟨v, ?_⟩
      rw [sceneVisibility_cycleA, sceneVisibility_updateCubeSize, sceneVisibility_updateIod]
      exact hv
    · refine ⟨v.next, sceneVisibility_cycleX _ _ ?_⟩
      rw [sceneVisibility_updateCubeSize, sceneVisibility_updateIod]
      exact hv
    · refine ⟨v, ?_⟩
      rw [sceneVisibility_updateCubeSize, sceneVisibility_updateIod]
      exact hv
  · exact ⟨v, hv⟩

/-! ## The mode state machines -/

/-- C1: from the initial flags, five successive stereo triggers visit Mono,
LeftOnly, RightOnly and Inverted in that order, each once, and the fifth
returns the mode to Stereo. -/
theorem C1_stereo_cycle (f1 f2 f3 f4 f5 : FrameInput)
    (h1 : f1.isTriggerA) (h2 : f2.isTriggerA) (h3 : f3.isTriggerA) (h4 : f4.isTriggerA)
    (h5 : f5.isTriggerA) :
    stereoMode Globals.initial = some .Stereo ∧
    [stereoMode (runUpdates Globals.initial [f1]),
     stereoMode (runUpdates Globals.initial [f1, f2]),
     stereoMode (runUpdates Globals.initial [f1, f2, f3]),
     stereoMode (runUpdates Globals.initial [f1, f2, f3, f4]),
     stereoMode (runUpdates Globals.initial [f1, f2, f3, f4, f5])] =
      [some .Mono, some .LeftOnly, some .RightOnly, some .Inverted, some .Stereo] ∧
    [StereoMode.Stereo, .Mono, .LeftOnly, .RightOnly, .Inverted].Nodup := by
  have e0 : stereoMode Globals.initial = some .Stereo := rfl
  have e1 := stereoMode_update_triggerA _ f1 _ h1 e0
  have e2 := stereoMode_update_triggerA _ f2 _ h2 e1
  have e3 := stereoMode_update_triggerA _ f3 _ h3 e2
  have e4 := stereoMode_update_triggerA _ f4 _ h4 e3
  have e5 := stereoMode_update_triggerA _ f5 _ h5 e4
  refine ⟨e0, ?_, by decide⟩
  simp only [runUpdates, e1, e2, e3, e4, e5, StereoMode.next]

/-- Witness of C1 at five identical A-button frames. -/
theorem C1_stereo_cycle_witness :
    frameA.isTriggerA ∧
    [stereoMode (runUpdates Globals.initial [frameA]),
     stereoMode (runUpdates Globals.initial [frameA, frameA]),
     stereoMode (runUpdates Globals.initial [frameA, frameA, frameA]),
     stereoMode (runUpdates Globals.initial [frameA, frameA, frameA, frameA]),
     stereoMode (runUpdates Globals.initial [frameA, frameA, frameA, frameA, frameA])] =
      [some .Mono, some .LeftOnly, some .RightOnly, some .Inverted, some .Stereo] :=
  ⟨⟨rfl, rfl⟩,
   (C1_stereo_cycle frameA frameA frameA frameA frameA
      ⟨rfl, rfl⟩ ⟨rfl, rfl⟩ ⟨rfl, rfl⟩ ⟨rfl, rfl⟩ ⟨rfl, rfl⟩).2.1⟩

/-- C2: one visibility trigger moves every one-hot visibility state to its
ring successor FullScene, SkyboxStereo, SkyboxMono, AlternateSkybox,
FullScene; four triggers from the initial state return to FullScene. -/
theorem C2_visibility_cycle (g : Globals) (v : SceneVisibility) (f f1 f2 f3 f4 : FrameInput)
    (hg : sceneVisibility g = some v) (hf : f.isTriggerX)
    (h1 : f1.isTriggerX) (h2 : f2.isTriggerX) (h3 : f3.isTriggerX) (h4 : f4.isTriggerX) :
    sceneVisibility (RiftApp.update g f.result f.inputState) = some v.next ∧
    sceneVisibility Globals.initial = some .FullScene ∧
    sceneVisibility (runUpdates Globals.initial [f1, f2, f3, f4]) = some .FullScene := by
  have e0 : sceneVisibility Globals.initial = some .FullScene := rfl
  have e1 := sceneVisibility_update_triggerX _ f1 _ h1 e0
  have e2 := sceneVisibility_update_triggerX _ f2 _ h2 e1
  have e3 := sceneVisibility_update_triggerX _ f3 _ h3 e2
  have e4 := sceneVisibility_update_triggerX _ f4 _ h4 e3
  exact ⟨sceneVisibility_update_triggerX g f v hf hg, e0, by simpa [runUpdates] using e4⟩

/-- Witness of C2 at the initial flags and X-button frames. -/
theorem C2_visibility_cycle_witness :
    sceneVisibility Globals.initial = some .FullScene ∧ frameX.isTriggerX ∧
    sceneVisibility (RiftApp.update Globals.initial frameX.result frameX.inputState) =
      some .SkyboxStereo ∧
    sceneVisibility (runUpdates Globals.initial [frameX, frameX, frameX, frameX]) =
      some .FullScene :=
  ⟨rfl, ⟨rfl, rfl⟩,
   (C2_visibility_cycle Globals.initial .FullScene frameX frameX frameX frameX frameX rfl
      ⟨rfl, rfl⟩ ⟨rfl, rfl⟩ ⟨rfl, rfl⟩ ⟨rfl, rfl⟩ ⟨rfl, rfl⟩).1,
   (C2_visibility_cycle Globals.initial .FullScene frameX frameX frameX frameX frameX rfl
      ⟨rfl, rfl⟩ ⟨rfl, rfl⟩ ⟨rfl, rfl⟩ ⟨rfl, rfl⟩ ⟨rfl, rfl⟩).2.2⟩

/-- C3: after any finite sequence of update calls from the initial flags,
with arbitrary input and failed reads included, exactly one of a1..a5 and
exactly one of x1..x4 is true. -/
theorem C3_one_hot_invariant (fs : List FrameInput) :
    oneHotA (runUpdates Globals.initial fs) ∧ oneHotX (runUpdates Globals.initial fs) := by
  have key : ∀ (fs : List FrameInput) (g : Globals), oneHotA g ∧ oneHotX g →
      oneHotA (runUpdates g fs) ∧ oneHotX (runUpdates g fs) := by
    intro fs
    induction fs with
    | nil => intro g h; exact h
    | cons f fs ih =>
      intro g h
      exact ih _ ⟨oneHotA_update g _ _ h.1, oneHotX_update g _ _ h.2⟩
  exact key fs Globals.initial ⟨by decide, by decide⟩

/-- C4: the code is level-triggered.  With the A button held over two
consecutive update calls the stereo mode advances two steps, Stereo to
LeftOnly, and with X held the visibility mode advances two steps, FullScene
to SkyboxMono; a single press event is not counted once. -/
theorem C4_held_button_advances_every_update :
    frameA.isTriggerA ∧ frameX.isTriggerX ∧
    stereoMode (runUpdates Globals.initial [frameA]) = some .Mono ∧
    stereoMode (runUpdates Globals.initial [frameA, frameA]) = some .LeftOnly ∧
    sceneVisibility (runUpdates Globals.initial [frameX]) = some .SkyboxStereo ∧
    sceneVisibility (runUpdates Globals.initial [frameX, frameX]) = some .SkyboxMono := by
  decide

/-! ## The render-target layout -/

/-- The constructor's layout, written out: the two loop iterations unfolded. -/
theorem RiftApp_layout_eq (rts0 : uvec2) (eyeSize : PerEye ovrSizei) :
    RiftApp.RiftApp rts0 eyeSize =
      { Viewport :=
          { Left := { Pos := { x := toInt32 rts0.x, y := 0 }, Size := eyeSize.Left },
            Right := { Pos := { x := toInt32 ((rts0.x + toUInt32 eyeSize.Left.w) % 2 ^ 32), y := 0 },
                       Size := eyeSize.Right } },
        _renderTargetSize :=
          { x := ((rts0.x + toUInt32 eyeSize.Left.w) % 2 ^ 32 + toUInt32 eyeSize.Right.w) % 2 ^ 32,
            y := max (max rts0.y (toUInt32 eyeSize.Left.h)) (toUInt32 eyeSize.Right.h) },
        _mirrorSize :=
          { x := (((rts0.x + toUInt32 eyeSize.Left.w) % 2 ^ 32 + toUInt32 eyeSize.Right.w)
                    % 2 ^ 32) / 2,
            y := max (max rts0.y (toUInt32 eyeSize.Left.h)) (toUInt32 eyeSize.Right.h) / 2 } } := by
  rfl

/-- C5: starting from a zero render-target size, the constructor yields the
render-target size (wL + wR, max(hL, hR)) whenever wL + wR fits in 32 bits,
and the mirror size is that size halved in each axis by integer division;
eye sizes 960x1080 and 960x1080 give 1920x1080 and 960x540. -/
theorem C5_render_target_and_mirror_size (wL hL wR hR : Int)
    (iwL : isInt32 wL) (ihL : isInt32 hL) (iwR : isInt32 wR) (ihR : isInt32 hR)
    (hsum0 : 0 ≤ wL + wR) (hsum : wL + wR < 2 ^ 32) :
    (((RiftApp.RiftApp { x := 0, y := 0 }
        { Left := { w := wL, h := hL }, Right := { w := wR, h := hR } })._renderTargetSize.x
        : Nat) : Int) = wL + wR ∧
    (RiftApp.RiftApp { x := 0, y := 0 }
        { Left := { w := wL, h := hL }, Right := { w := wR, h := hR } })._renderTargetSize.y
      = max (toUInt32 hL) (toUInt32 hR) ∧
    (0 ≤ hL → 0 ≤ hR →
      (((RiftApp.RiftApp { x := 0, y := 0 }
        { Left := { w := wL, h := hL }, Right := { w := wR, h := hR } })._renderTargetSize.y
        : Nat) : Int) = max hL hR) ∧
    (RiftApp.RiftApp { x := 0, y := 0 }
        { Left := { w := wL, h := hL }, Right := { w := wR, h := hR } })._mirrorSize =
      { x := (RiftApp.RiftApp { x := 0, y := 0 }
          { Left := { w := wL, h := hL }, Right := { w := wR, h := hR } })._renderTargetSize.x / 2,
        y := (RiftApp.RiftApp { x := 0, y := 0 }
          { Left := { w := wL, h := hL }, Right := { w := wR, h := hR } })._renderTargetSize.y / 2 } ∧
    (RiftApp.RiftApp { x := 0, y := 0 } eyeSize960)._renderTargetSize = { x := 1920, y := 1080 } ∧
    (RiftApp.RiftApp { x := 0, y := 0 } eyeSize960)._mirrorSize = { x := 960, y := 540 } := by
  unfold isInt32 at iwL ihL iwR ihR
  refine ⟨?_, ?_, ?_, rfl, by decide, by decide⟩
  · simp only [RiftApp_layout_eq, toUInt32]
    omega
  · simp only [RiftApp_layout_eq, toUInt32]
    omega
  · intro h1 h2
    simp only [RiftApp_layout_eq, toUInt32]
    omega

/-- Witness of C5 at eye sizes 960x1080 and 960x1080. -/
theorem C5_render_target_and_mirror_size_witness :
    isInt32 960 ∧ isInt32 1080 ∧ (0 : Int) ≤ 960 + 960 ∧ (960 + 960 : Int) < 2 ^ 32 ∧
    (RiftApp.RiftApp { x := 0, y := 0 } eyeSize960)._renderTargetSize = { x := 1920, y := 1080 } ∧
    (RiftApp.RiftApp { x := 0, y := 0 } eyeSize960)._mirrorSize = { x := 960, y := 540 } :=
  ⟨by decide, by decide, by decide, by decide,
   (C5_render_target_and_mirror_size 960 1080 960 1080 (by decide) (by decide) (by decide)
      (by decide) (by decide) (by decide)).2.2.2.2⟩

/-- C6: for non-negative eye widths the constructor stores the left viewport
with x-range [0, wL) and the right viewport with x-range [wL, wL + wR); the
two ranges are disjoint and their union is [0, _renderTargetSize.x), so its
width is the render-target width. -/
theorem C6_viewports_partition_render_target (wL hL wR hR : Int)
    (iwL : isInt32 wL) (iwR : isInt32 wR) (hwL : 0 ≤ wL) (hwR : 0 ≤ wR) :
    (RiftApp.RiftApp { x := 0, y := 0 }
        { Left := { w := wL, h := hL }, Right := { w := wR, h := hR } }).Viewport.Left =
      { Pos := { x := 0, y := 0 }, Size := { w := wL, h := hL } } ∧
    (RiftApp.RiftApp { x := 0, y := 0 }
        { Left := { w := wL, h := hL }, Right := { w := wR, h := hR } }).Viewport.Right =
      { Pos := { x := wL, y := 0 }, Size := { w := wR, h := hR } } ∧
    (((RiftApp.RiftApp { x := 0, y := 0 }
        { Left := { w := wL, h := hL }, Right := { w := wR, h := hR } })._renderTargetSize.x
        : Nat) : Int) = wL + wR ∧
    (∀ x : Int,
      ¬ ((RiftApp.RiftApp { x := 0, y := 0 }
            { Left := { w := wL, h := hL }, Right := { w := wR, h := hR } }).Viewport.Left.coversX x ∧
         (RiftApp.RiftApp { x := 0, y := 0 }
            { Left := { w := wL, h := hL }, Right := { w := wR, h := hR } }).Viewport.Right.coversX x)) ∧
    (∀ x : Int,
      ((RiftApp.RiftApp { x := 0, y := 0 }
            { Left := { w := wL, h := hL }, Right := { w := wR, h := hR } }).Viewport.Left.coversX x ∨
         (RiftApp.RiftApp { x := 0, y := 0 }
            { Left := { w := wL, h := hL }, Right := { w := wR, h := hR } }).Viewport.Right.coversX x) ↔
        (0 ≤ x ∧ x < (((RiftApp.RiftApp { x := 0, y := 0 }
            { Left := { w := wL, h := hL }, Right := { w := wR, h := hR } })._renderTargetSize.x
            : Nat) : Int))) := by
  unfold isInt32 at iwL iwR
  have eL : toInt32 0 = 0 := by decide
  have eR : toInt32 ((0 + toUInt32 wL) % 2 ^ 32) = wL := by
    simp only [toInt32, toUInt32]
    split_ifs <;> omega
  have ex : ((((0 + toUInt32 wL) % 2 ^ 32 + toUInt32 wR) % 2 ^ 32 : Nat) : Int) = wL + wR := by
    simp only [toUInt32]
    omega
  simp only [RiftApp_layout_eq, eL, eR, ex, ovrRecti.coversX]
  refine ⟨trivial, trivial, trivial, ?_, ?_⟩
  · intro x
    omega
  · intro x
    omega

/-- Witness of C6 at eye sizes 960x1080 and 960x1080. -/
theorem C6_viewports_partition_render_target_witness :
    isInt32 960 ∧ (0 : Int) ≤ 960 ∧
    (RiftApp.RiftApp { x := 0, y := 0 } eyeSize960).Viewport.Left =
      { Pos := { x := 0, y := 0 }, Size := { w := 960, h := 1080 } } ∧
    (RiftApp.RiftApp { x := 0, y := 0 } eyeSize960).Viewport.Right =
      { Pos := { x := 960, y := 0 }, Size := { w := 960, h := 1080 } } :=
  ⟨by decide, by decide,
   (C6_viewports_partition_render_target 960 1080 960 1080 (by decide) (by decide) (by decide)
      (by decide)).1,
   (C6_viewports_partition_render_target 960 1080 960 1080 (by decide) (by decide) (by decide)
      (by decide)).2.1⟩

/-! ## The scene-renderer calls of `draw` -/

/-- The scene-renderer calls of one `draw` are those of the left eye's
lambda body, made under the left viewport, followed by those of the right
eye's body, made under the right viewport. -/
theorem renderSceneCalls_eq {K : Type} [Field K] (g : Globals) (app : RiftAppMembers K)
    (dev : DeviceFrame K) :
    renderSceneCalls g app dev =
      renderSceneCallsFrom (some ovrEye_Left)
        (drawEyeScene g app dev.eyePoses ovrEye_Left) ++
      renderSceneCallsFrom (some ovrEye_Right)
        (drawEyeScene g app dev.eyePoses ovrEye_Right) := by
  obtain ⟨c1, c2, c3, i1, i2, i3, x1, x2, x3, x4, a1, a2, a3, a4, a5⟩ := g
  cases a1 <;> cases a2 <;> cases a3 <;> cases a4 <;> cases a5 <;> rfl

/-- C7: with a1 set, one draw calls the scene renderer exactly twice, first
under the left viewport with (projection[Left], eyePoses[Left], true), then
under the right viewport with (projection[Right], eyePoses[Right], false). -/
theorem C7_stereo_renders_each_eye_with_own_pose {K : Type} [Field K] (g : Globals)
    (app : RiftAppMembers K) (dev : DeviceFrame K) (h1 : g.a1 = true) :
    renderSceneCalls g app dev =
      [(some ovrEye_Left,
          { projection := app._eyeProjections.get ovrEye_Left,
            headPose := ovr.toGlm (dev.eyePoses.get ovrEye_Left), isLeft := true }),
       (some ovrEye_Right,
          { projection := app._eyeProjections.get ovrEye_Right,
            headPose := ovr.toGlm (dev.eyePoses.get ovrEye_Right), isLeft := false })] := by
  rw [renderSceneCalls_eq]
  simp [drawEyeScene, h1, renderSceneCallsFrom]

/-- Witness of C7 at the initial flags, where a1 is set. -/
theorem C7_stereo_renders_each_eye_with_own_pose_witness :
    Globals.initial.a1 = true ∧
    renderSceneCalls Globals.initial sampleApp sampleDevice =
      [(some ovrEye_Left,
          { projection := sampleApp._eyeProjections.get ovrEye_Left,
            headPose := ovr.toGlm (sampleDevice.eyePoses.get ovrEye_Left), isLeft := true }),
       (some ovrEye_Right,
          { projection := sampleApp._eyeProjections.get ovrEye_Right,
            headPose := ovr.toGlm (sampleDevice.eyePoses.get ovrEye_Right), isLeft := false })] :=
  ⟨rfl, C7_stereo_renders_each_eye_with_own_pose Globals.initial sampleApp sampleDevice rfl⟩

/-- C8: with a3 set and a1, a2 clear, one draw issues no scene-renderer call
under the right viewport and exactly one under the left viewport, with
isLeft = true. -/
theorem C8_left_only_skips_right_viewport {K : Type} [Field K] (g : Globals)
    (app : RiftAppMembers K) (dev : DeviceFrame K)
    (h1 : g.a1 = false) (h2 : g.a2 = false) (h3 : g.a3 = true) :
    renderSceneCallsIn g app dev ovrEye_Right = [] ∧
    renderSceneCallsIn g app dev ovrEye_Left =
      [{ projection := app._eyeProjections.get ovrEye_Left,
         headPose := ovr.toGlm (dev.eyePoses.get ovrEye_Left), isLeft := true }] ∧
    (renderSceneCallsIn g app dev ovrEye_Left).length = 1 ∧
    ∀ c ∈ renderSceneCallsIn g app dev ovrEye_Left, c.isLeft = true := by
  have e : renderSceneCalls g app dev =
      [(some ovrEye_Left,
          { projection := app._eyeProjections.get ovrEye_Left,
            headPose := ovr.toGlm (dev.eyePoses.get ovrEye_Left), isLeft := true })] := by
    rw [renderSceneCalls_eq]
    simp [drawEyeScene, h1, h2, h3, renderSceneCallsFrom]
  simp [renderSceneCallsIn, e]

/-- Witness of C8 at the LeftOnly flags. -/
theorem C8_left_only_skips_right_viewport_witness :
    (Globals.ofStereoMode .LeftOnly).a1 = false ∧ (Globals.ofStereoMode .LeftOnly).a2 = false ∧
    (Globals.ofStereoMode .LeftOnly).a3 = true ∧
    renderSceneCallsIn (Globals.ofStereoMode .LeftOnly) sampleApp sampleDevice ovrEye_Right = [] ∧
    (renderSceneCallsIn (Globals.ofStereoMode .LeftOnly) sampleApp sampleDevice
      ovrEye_Left).length = 1 :=
  ⟨rfl, rfl, rfl,
   (C8_left_only_skips_right_viewport (Globals.ofStereoMode .LeftOnly) sampleApp sampleDevice
      rfl rfl rfl).1,
   (C8_left_only_skips_right_viewport (Globals.ofStereoMode .LeftOnly) sampleApp sampleDevice
      rfl rfl rfl).2.2.1⟩

/-- C9: with a5 set and a1..a4 clear, and eye poses P_L and P_R, one draw
calls the scene exactly once per viewport: under the left viewport it
receives the view matrix inverse(toGlm(P_R)), under the right viewport the
view matrix inverse(toGlm(P_L)). -/
theorem C9_inverted_swaps_view_matrices {K : Type} [Field K] (g : Globals)
    (app : RiftAppMembers K) (dev : DeviceFrame K) (P_L P_R : ovrPosef K)
    (h1 : g.a1 = false) (h2 : g.a2 = false) (h3 : g.a3 = false) (h4 : g.a4 = false)
    (h5 : g.a5 = true) (hL : dev.eyePoses.get ovrEye_Left = P_L)
    (hR : dev.eyePoses.get ovrEye_Right = P_R) :
    (renderSceneCallsIn g app dev ovrEye_Left).length = 1 ∧
    (renderSceneCallsIn g app dev ovrEye_Right).length = 1 ∧
    (renderSceneCallsIn g app dev ovrEye_Left).map (fun c => c.received.view) =
      [glm.inverse (ovr.toGlm P_R)] ∧
    (renderSceneCallsIn g app dev ovrEye_Right).map (fun c => c.received.view) =
      [glm.inverse (ovr.toGlm P_L)] := by
  have e : renderSceneCalls g app dev =
      [(some ovrEye_Left,
          { projection := app._eyeProjections.get ovrEye_Right,
            headPose := ovr.toGlm (dev.eyePoses.get ovrEye_Right), isLeft := false }),
       (some ovrEye_Right,
          { projection := app._eyeProjections.get ovrEye_Left,
            headPose := ovr.toGlm (dev.eyePoses.get ovrEye_Left), isLeft := true })] := by
    rw [renderSceneCalls_eq]
    simp [drawEyeScene, h1, h2, h3, h4, h5, renderSceneCallsFrom]
  simp [renderSceneCallsIn, e, RenderSceneCall.received, ExampleApp.renderScene, hL, hR]

/-- Witness of C9 at the Inverted flags and the sample eye poses. -/
theorem C9_inverted_swaps_view_matrices_witness :
    (Globals.ofStereoMode .Inverted).a1 = false ∧ (Globals.ofStereoMode .Inverted).a2 = false ∧
    (Globals.ofStereoMode .Inverted).a3 = false ∧ (Globals.ofStereoMode .Inverted).a4 = false ∧
    (Globals.ofStereoMode .Inverted).a5 = true ∧
    sampleDevice.eyePoses.get ovrEye_Left = poseAt (-32 / 1000) 0 0 ∧
    sampleDevice.eyePoses.get ovrEye_Right = poseAt (32 / 1000) 0 0 ∧
    (renderSceneCallsIn (Globals.ofStereoMode .Inverted) sampleApp sampleDevice ovrEye_Left).map
        (fun c => c.received.view) = [glm.inverse (ovr.toGlm (poseAt (32 / 1000) 0 0))] ∧
    (renderSceneCallsIn (Globals.ofStereoMode .Inverted) sampleApp sampleDevice ovrEye_Right).map
        (fun c => c.received.view) = [glm.inverse (ovr.toGlm (poseAt (-32 / 1000) 0 0))] :=
  ⟨rfl, rfl, rfl, rfl, rfl, rfl, rfl,
   (C9_inverted_swaps_view_matrices (Globals.ofStereoMode .Inverted) sampleApp sampleDevice
      (poseAt (-32 / 1000) 0 0) (poseAt (32 / 1000) 0 0) rfl rfl rfl rfl rfl rfl rfl).2.2.1,
   (C9_inverted_swaps_view_matrices (Globals.ofStereoMode .Inverted) sampleApp sampleDevice
      (poseAt (-32 / 1000) 0 0) (poseAt (32 / 1000) 0 0) rfl rfl rfl rfl rfl rfl rfl).2.2.2⟩

theorem stereoMode_flags (g : Globals) (m : StereoMode) (h : stereoMode g = some m) :
    g.a1 = decide (m = .Stereo) ∧ g.a2 = decide (m = .Mono) ∧ g.a3 = decide (m = .LeftOnly) ∧
    g.a4 = decide (m = .RightOnly) ∧ g.a5 = decide (m = .Inverted) := by
  obtain ⟨c1, c2, c3, i1, i2, i3, x1, x2, x3, x4, a1, a2, a3, a4, a5⟩ := g
  cases a1 <;> cases a2 <;> cases a3 <;> cases a4 <;> cases a5 <;>
    simp [stereoMode] at h <;> subst h <;> simp

/-- C10, as stated, fails: in Mono mode the call under the right viewport has
isLeft = true, and in Inverted mode the call under the left viewport has
isLeft = false and the right eye's projection. -/
theorem C10_counterexample :
    ¬ (∀ eye, ∀ c ∈ renderSceneCallsIn (Globals.ofStereoMode .Mono) sampleApp sampleDevice eye,
        c.projection = sampleApp._eyeProjections.get eye ∧
        (c.isLeft = true ↔ eye = ovrEye_Left)) ∧
    ¬ (∀ eye, ∀ c ∈ renderSceneCallsIn (Globals.ofStereoMode .Inverted) sampleApp sampleDevice eye,
        c.projection = sampleApp._eyeProjections.get eye ∧
        (c.isLeft = true ↔ eye = ovrEye_Left)) := by
  constructor
  · intro h
    have e : renderSceneCallsIn (Globals.ofStereoMode .Mono) sampleApp sampleDevice ovrEye_Right =
        [{ projection := sampleApp._eyeProjections.get ovrEye_Right,
           headPose := ovr.toGlm (sampleDevice.eyePoses.get ovrEye_Left), isLeft := true }] := rfl
    have h' := (h ovrEye_Right _ (by rw [e]; exact List.mem_singleton_self _)).2
    simp at h'
  · intro h
    have e : renderSceneCallsIn (Globals.ofStereoMode .Inverted) sampleApp sampleDevice
        ovrEye_Left =
        [{ projection := sampleApp._eyeProjections.get ovrEye_Right,
           headPose := ovr.toGlm (sampleDevice.eyePoses.get ovrEye_Right), isLeft := false }] := rfl
    have h' := (h ovrEye_Left _ (by rw [e]; exact List.mem_singleton_self _)).2
    simp at h'

/-- C10, amended: in Stereo, LeftOnly and RightOnly mode every scene-renderer
call uses the projection of the eye whose viewport is set, with isLeft true
exactly under the left viewport; in Mono mode it uses the projection of the
viewport's eye with isLeft true under both viewports; in Inverted mode it uses
the projection of the other eye, with isLeft true exactly under the right
viewport. -/
theorem C10_projection_and_isLeft_per_mode {K : Type} [Field K] (g : Globals) (m : StereoMode)
    (app : RiftAppMembers K) (dev : DeviceFrame K) (eye : ovrEyeType) (c : RenderSceneCall K)
    (hm : stereoMode g = some m) (hc : c ∈ renderSceneCallsIn g app dev eye) :
    match m with
    | .Stereo | .LeftOnly | .RightOnly =>
        c.projection = app._eyeProjections.get eye ∧ (c.isLeft = true ↔ eye = ovrEye_Left)
    | .Mono => c.projection = app._eyeProjections.get eye ∧ c.isLeft = true
    | .Inverted =>
        c.projection = app._eyeProjections.get eye.other ∧ (c.isLeft = true ↔ eye = ovrEye_Right) := by
  obtain ⟨f1, f2, f3, f4, f5⟩ := stereoMode_flags g m hm
  unfold renderSceneCallsIn at hc
  rw [renderSceneCalls_eq] at hc
  cases m <;> cases eye <;>
    simp [drawEyeScene, f1, f2, f3, f4, f5, renderSceneCallsFrom] at hc <;>
    subst hc <;> simp [ovrEyeType.other]

/-- Witness of the amended C10 in Mono mode under the right viewport. -/
theorem C10_projection_and_isLeft_per_mode_witness :
    stereoMode (Globals.ofStereoMode .Mono) = some .Mono ∧
    monoRightCall ∈ renderSceneCallsIn (Globals.ofStereoMode .Mono) sampleApp sampleDevice
      ovrEye_Right ∧
    monoRightCall.projection = sampleApp._eyeProjections.get ovrEye_Right ∧
    monoRightCall.isLeft = true :=
  ⟨rfl, List.mem_singleton_self monoRightCall,
   C10_projection_and_isLeft_per_mode (Globals.ofStereoMode .Mono) .Mono sampleApp sampleDevice
      ovrEye_Right monoRightCall rfl (List.mem_singleton_self monoRightCall)⟩

/-! ## Frame effect of update -/

theorem aFlags_updateCubeSize (g : Globals) (i : ovrInputState) :
    (updateCubeSize g i).aFlags = g.aFlags ∧ (updateCubeSize g i).xFlags = g.xFlags := by
  unfold updateCubeSize; split_ifs <;> exact ⟨rfl, rfl⟩

theorem aFlags_updateIod (g : Globals) (i : ovrInputState) :
    (updateIod g i).aFlags = g.aFlags ∧ (updateIod g i).xFlags = g.xFlags := by
  unfold updateIod; split_ifs <;> exact ⟨rfl, rfl⟩

theorem xFlags_cycleA (g : Globals) : (cycleA g).xFlags = g.xFlags := by
  unfold cycleA; split_ifs <;> rfl

theorem aFlags_cycleX (g : Globals) : (cycleX g).aFlags = g.aFlags := by
  unfold cycleX; split_ifs <;> rfl

/-- C13: the code sets cube_size_reset on any nonzero button word.  A
successful read with only the A button down and the left stick centred has
the ovrButton_LThumb bit clear, yet update sets cube_size_reset. -/
theorem C13_cube_size_reset_on_any_button :
    OVR_SUCCESS frameA.result = true ∧ frameA.inputState.ThumbstickLeftX = 0 ∧
    frameA.inputState.Buttons &&& ovrButton_LThumb = 0 ∧
    (RiftApp.update Globals.initial frameA.result frameA.inputState).cube_size_reset = true := by
  decide

/-- C16: update leaves a1..a5 and x1..x4 unchanged unless the read succeeds
with the button word exactly ovrButton_A or exactly ovrButton_X; on exactly
ovrButton_A the flags x1..x4 are unchanged, on exactly ovrButton_X the flags
a1..a5 are unchanged. -/
theorem C16_mode_flags_change_only_on_exact_match (g : Globals) (result : Int)
    (i : ovrInputState) :
    ((OVR_SUCCESS result = false ∨ (i.Buttons ≠ ovrButton_A ∧ i.Buttons ≠ ovrButton_X)) →
      (RiftApp.update g result i).aFlags = g.aFlags ∧
      (RiftApp.update g result i).xFlags = g.xFlags) ∧
    (i.Buttons = ovrButton_A → (RiftApp.update g result i).xFlags = g.xFlags) ∧
    (i.Buttons = ovrButton_X → (RiftApp.update g result i).aFlags = g.aFlags) := by
  have pre : (updateCubeSize (updateIod
        { g with cube_size_up := false, cube_size_down := false, cube_size_reset := false,
                 iod_up := false, iod_down := false, iod_reset := false } i) i).aFlags = g.aFlags ∧
      (updateCubeSize (updateIod
        { g with cube_size_up := false, cube_size_down := false, cube_size_reset := false,
                 iod_up := false, iod_down := false, iod_reset := false } i) i).xFlags = g.xFlags := by
    constructor
    · rw [(aFlags_updateCubeSize _ _).1, (aFlags_updateIod _ _).1]
      rfl
    · rw [(aFlags_updateCubeSize _ _).2, (aFlags_updateIod _ _).2]
      rfl
  refine ⟨?_, ?_, ?_⟩
  · intro h
    unfold RiftApp.update
    simp only
    split_ifs with hs
    · rcases h with h | ⟨hA, hX⟩
      · rw [hs] at h
        exact absurd h (by decide)
      · unfold updateModes
        rw [if_neg hA, if_neg hX]
        exact pre
    · exact ⟨rfl, rfl⟩
  · intro hA
    unfold RiftApp.update
    simp only
    split_ifs
    · unfold updateModes
      rw [if_pos hA, xFlags_cycleA]
      exact pre.2
    · rfl
  · intro hX
    unfold RiftApp.update
    simp only
    split_ifs
    · unfold updateModes
      rw [if_neg (by rw [hX]; exact ovrButton_X_ne_A), if_pos hX, aFlags_cycleX]
      exact pre.1
    · rfl

/-- Witness of C16: A held together with X, a failed read, and the exact
words ovrButton_A and ovrButton_X. -/
theorem C16_mode_flags_change_only_on_exact_match_witness :
    ((ovrButton_A ||| ovrButton_X) ≠ ovrButton_A ∧ (ovrButton_A ||| ovrButton_X) ≠ ovrButton_X) ∧
    (RiftApp.update Globals.initial 0
      { Buttons := ovrButton_A ||| ovrButton_X, ThumbstickLeftX := 0, ThumbstickRightX := 0 }).aFlags
      = Globals.initial.aFlags ∧
    (RiftApp.update Globals.initial 0
      { Buttons := ovrButton_A ||| ovrButton_X, ThumbstickLeftX := 0, ThumbstickRightX := 0 }).xFlags
      = Globals.initial.xFlags ∧
    (RiftApp.update Globals.initial frameA.result frameA.inputState).xFlags
      = Globals.initial.xFlags ∧
    (RiftApp.update Globals.initial frameX.result frameX.inputState).aFlags
      = Globals.initial.aFlags :=
  ⟨by decide,
   ((C16_mode_flags_change_only_on_exact_match Globals.initial 0
      { Buttons := ovrButton_A ||| ovrButton_X, ThumbstickLeftX := 0, ThumbstickRightX := 0 }).1
      (Or.inr (by decide))).1,
   ((C16_mode_flags_change_only_on_exact_match Globals.initial 0
      { Buttons := ovrButton_A ||| ovrButton_X, ThumbstickLeftX := 0, ThumbstickRightX := 0 }).1
      (Or.inr (by decide))).2,
   (C16_mode_flags_change_only_on_exact_match Globals.initial frameA.result
      frameA.inputState).2.1 rfl,
   (C16_mode_flags_change_only_on_exact_match Globals.initial frameX.result
      frameX.inputState).2.2 rfl⟩

/-! ## The operation sequence of `draw` -/

/-- The operations of one `draw`, written out around the two per-eye
scene-renderer blocks. -/
theorem draw_ops_eq {K : Type} [Field K] (g : Globals) (app : RiftAppMembers K)
    (dev : DeviceFrame K) :
    (RiftApp.draw g app dev).2 =
      [.ovr_GetPredictedDisplayTime, .ovr_GetTrackingState, .ovr_GetEyePoses app.frame] ++
      [.ovr_GetTextureSwapChainCurrentIndex] ++
      ([.ovr_GetTextureSwapChainBufferGL dev.curIndex, .glBindDrawFramebuffer app._fbo,
        .glDrawFramebufferTexture2D dev.curTexId, .glClear,
        .glViewport ovrEye_Left (app.Viewport.get ovrEye_Left)] ++
       drawEyeScene g app dev.eyePoses ovrEye_Left ++
       [.glViewport ovrEye_Right (app.Viewport.get ovrEye_Right)] ++
       drawEyeScene g app dev.eyePoses ovrEye_Right ++
       [.glDrawFramebufferTexture2D 0, .glBindDrawFramebuffer 0]) ++
      [.ovr_CommitTextureSwapChain] ++
      [.ovr_SubmitFrame app.frame dev.eyePoses] ++
      [.ovr_GetMirrorTextureBufferGL, .glBindReadFramebuffer app._mirrorFbo,
       .glReadFramebufferTexture2D dev.mirrorTextureId] ++
      [.glBlitFramebuffer 0 0 app._mirrorSize.x app._mirrorSize.y
         0 app._mirrorSize.y app._mirrorSize.x 0] ++
      [.glBindReadFramebuffer 0] := by
  have e : ∀ (r : PerEye (ovrPosef K)) (eye : ovrEyeType),
      drawEyeScene g { app with RenderPose := r } dev.eyePoses eye =
        drawEyeScene g app dev.eyePoses eye := fun _ _ => rfl
  have er : (app.RenderPose.set ovrEye_Left (dev.eyePoses.get ovrEye_Left)).set ovrEye_Right
      (dev.eyePoses.get ovrEye_Right) = dev.eyePoses := rfl
  simp only [RiftApp.draw, ovr.for_each_eye, List.foldl, drawEye, e, er, List.append_assoc,
    List.cons_append, List.nil_append]

/-- Every operation of a per-eye scene block is a scene-renderer call. -/
theorem drawEyeScene_isRenderScene {K : Type} [Field K] (g : Globals) (app : RiftAppMembers K)
    (eyePoses : PerEye (ovrPosef K)) (eye : ovrEyeType) :
    ∀ op ∈ drawEyeScene g app eyePoses eye, op.isRenderScene = true := by
  intro op hop
  unfold drawEyeScene at hop
  split_ifs at hop <;> simp at hop <;>
    first
      | (subst hop; rfl)
      | (rcases hop with rfl | rfl <;> rfl)

theorem isRenderScene_excludes {K : Type} (op : DrawOp K) (h : op.isRenderScene = true) :
    op.isAcquire = false ∧ op.isCommit = false ∧ op.isSubmit = false ∧ op.isBlit = false := by
  cases op <;> first | exact Bool.noConfusion h | exact ⟨rfl, rfl, rfl, rfl⟩

/-- One draw reads the swap-chain index once, commits once and submits once. -/
theorem draw_countP {K : Type} [Field K] (g : Globals) (app : RiftAppMembers K)
    (dev : DeviceFrame K) :
    (RiftApp.draw g app dev).2.countP DrawOp.isAcquire = 1 ∧
    (RiftApp.draw g app dev).2.countP DrawOp.isCommit = 1 ∧
    (RiftApp.draw g app dev).2.countP DrawOp.isSubmit = 1 := by
  have hL := drawEyeScene_isRenderScene g app dev.eyePoses ovrEye_Left
  have hR := drawEyeScene_isRenderScene g app dev.eyePoses ovrEye_Right
  have cnt : ∀ (f : DrawOp K → Bool) (l : List (DrawOp K)),
      (∀ op ∈ l, f op = false) → l.countP f = 0 := by
    intro f l h
    rw [List.countP_eq_zero]
    intro op hop
    rw [h op hop]
    exact Bool.false_ne_true
  have cL : ∀ f : DrawOp K → Bool, (∀ op, op.isRenderScene = true → f op = false) →
      (drawEyeScene g app dev.eyePoses ovrEye_Left).countP f = 0 :=
    fun f hf => cnt f _ (fun op hop => hf op (hL op hop))
  have cR : ∀ f : DrawOp K → Bool, (∀ op, op.isRenderScene = true → f op = false) →
      (drawEyeScene g app dev.eyePoses ovrEye_Right).countP f = 0 :=
    fun f hf => cnt f _ (fun op hop => hf op (hR op hop))
  refine ⟨?_, ?_, ?_⟩
  · rw [draw_ops_eq]
    simp [List.countP_append, List.countP_cons, DrawOp.isAcquire,
      cL _ (fun op h => (isRenderScene_excludes op h).1),
      cR _ (fun op h => (isRenderScene_excludes op h).1)]
  · rw [draw_ops_eq]
    simp [List.countP_append, List.countP_cons, DrawOp.isCommit,
      cL _ (fun op h => (isRenderScene_excludes op h).2.1),
      cR _ (fun op h => (isRenderScene_excludes op h).2.1)]
  · rw [draw_ops_eq]
    simp [List.countP_append, List.countP_cons, DrawOp.isSubmit,
      cL _ (fun op h => (isRenderScene_excludes op h).2.2.1),
      cR _ (fun op h => (isRenderScene_excludes op h).2.2.1)]

/-- The render poses recorded by one draw are the queried eye poses. -/
theorem draw_RenderPose {K : Type} [Field K] (g : Globals) (app : RiftAppMembers K)
    (dev : DeviceFrame K) : (RiftApp.draw g app dev).1.RenderPose = dev.eyePoses := rfl

/-- C12: in the operations of any one draw, for every state of the flags, the
current swap-chain index is read exactly once, the swap chain is committed
exactly once and ovr_SubmitFrame is called exactly once; every scene-renderer
call lies between the read and the commit, the commit precedes the submit,
and the submit precedes the mirror blit. -/
theorem C12_acquire_render_commit_submit_blit_order {K : Type} [Field K] (g : Globals)
    (app : RiftAppMembers K) (dev : DeviceFrame K) :
    ((RiftApp.draw g app dev).2.countP DrawOp.isAcquire = 1 ∧
     (RiftApp.draw g app dev).2.countP DrawOp.isCommit = 1 ∧
     (RiftApp.draw g app dev).2.countP DrawOp.isSubmit = 1) ∧
    ∃ (l0 l1 l2 l3 l4 : List (DrawOp K)) (acquire commit submit blit : DrawOp K),
      (RiftApp.draw g app dev).2 =
        l0 ++ [acquire] ++ l1 ++ [commit] ++ l2 ++ [submit] ++ l3 ++ [blit] ++ l4 ∧
      acquire.isAcquire = true ∧ commit.isCommit = true ∧ submit.isSubmit = true ∧
      blit.isBlit = true ∧
      (∀ op ∈ l0 ++ l2 ++ l3 ++ l4, op.isRenderScene = false) := by
  refine ⟨draw_countP g app dev, ?_⟩
  · refine ⟨[.ovr_GetPredictedDisplayTime, .ovr_GetTrackingState, .ovr_GetEyePoses app.frame],
      [.ovr_GetTextureSwapChainBufferGL dev.curIndex, .glBindDrawFramebuffer app._fbo,
        .glDrawFramebufferTexture2D dev.curTexId, .glClear,
        .glViewport ovrEye_Left (app.Viewport.get ovrEye_Left)] ++
       drawEyeScene g app dev.eyePoses ovrEye_Left ++
       [.glViewport ovrEye_Right (app.Viewport.get ovrEye_Right)] ++
       drawEyeScene g app dev.eyePoses ovrEye_Right ++
       [.glDrawFramebufferTexture2D 0, .glBindDrawFramebuffer 0],
      [],
      [.ovr_GetMirrorTextureBufferGL, .glBindReadFramebuffer app._mirrorFbo,
       .glReadFramebufferTexture2D dev.mirrorTextureId],
      [.glBindReadFramebuffer 0],
      .ovr_GetTextureSwapChainCurrentIndex, .ovr_CommitTextureSwapChain,
      .ovr_SubmitFrame app.frame dev.eyePoses,
      .glBlitFramebuffer 0 0 app._mirrorSize.x app._mirrorSize.y
         0 app._mirrorSize.y app._mirrorSize.x 0,
      ?_, rfl, rfl, rfl, rfl, ?_⟩
    · rw [draw_ops_eq, List.append_nil]
    · intro op hop
      simp at hop
      rcases hop with h | h | h | h | h | h | h <;> subst h <;> rfl

/-- C15, as stated, fails: with both swap-chain queries returning a failure
code, draw still commits the swap chain and calls ovr_SubmitFrame. -/
theorem C15_counterexample :
    failedQueryDevice.queryFailed = true ∧
    ¬ ((RiftApp.draw Globals.initial sampleApp failedQueryDevice).2.countP DrawOp.isCommit = 0 ∧
       (RiftApp.draw Globals.initial sampleApp failedQueryDevice).2.countP DrawOp.isSubmit = 0) ∧
    (RiftApp.draw Globals.initial sampleApp failedQueryDevice).2.countP DrawOp.isCommit = 1 ∧
    (RiftApp.draw Globals.initial sampleApp failedQueryDevice).2.countP DrawOp.isSubmit = 1 := by
  have hc := (draw_countP Globals.initial sampleApp failedQueryDevice).2
  refine ⟨by decide, ?_, hc.1, hc.2⟩
  rw [hc.1]
  intro h
  exact absurd h.1 (by decide)

/-- C15, amended: draw tests no result code of a device call.  The object and
the operations of one draw are the same whatever result codes the device
returns, and in particular, also when a swap-chain query fails, the swap chain
is committed once and ovr_SubmitFrame is called once. -/
theorem C15_draw_ignores_result_codes {K : Type} [Field K] (g : Globals)
    (app : RiftAppMembers K) (dev : DeviceFrame K) (r1 r2 r3 r4 r5 : Int) :
    RiftApp.draw g app
        { dev with curIndexResult := r1, bufferResult := r2, commitResult := r3,
                   submitResult := r4, mirrorResult := r5 } = RiftApp.draw g app dev ∧
    (RiftApp.draw g app dev).2.countP DrawOp.isCommit = 1 ∧
    (RiftApp.draw g app dev).2.countP DrawOp.isSubmit = 1 :=
  ⟨rfl, (draw_countP g app dev).2.1, (draw_countP g app dev).2.2⟩

/-- The matrices of the two sample poses differ: without rotation the last
column of the pose matrix is the position itself. -/
theorem toGlm_sample_ne :
    ovr.toGlm (poseAt (-32 / 1000) 0 0) ≠ ovr.toGlm (poseAt (32 / 1000) 0 0) := by
  intro h
  have h03 := congrFun (congrFun h 0) 3
  simp [ovr.toGlm, glm.translate, glm.mat4_cast, poseAt, Matrix.mul_apply, Fin.sum_univ_four] at h03
  norm_num at h03

/-- C11, as stated, fails: in Mono mode the renderer is called under the right
viewport with the left eye's pose while RenderPose[Right] holds the right
eye's pose, and in Inverted mode the renderer is called under the left
viewport with the right eye's pose while RenderPose[Left] holds the left
eye's pose. -/
theorem C11_counterexample :
    ¬ (∀ eye, ∀ c ∈ renderSceneCallsIn (Globals.ofStereoMode .Mono) sampleApp sampleDevice eye,
        c.headPose = ovr.toGlm
          ((RiftApp.draw (Globals.ofStereoMode .Mono) sampleApp sampleDevice).1.RenderPose.get
            eye)) ∧
    ¬ (∀ eye, ∀ c ∈ renderSceneCallsIn (Globals.ofStereoMode .Inverted) sampleApp sampleDevice eye,
        c.headPose = ovr.toGlm
          ((RiftApp.draw (Globals.ofStereoMode .Inverted) sampleApp sampleDevice).1.RenderPose.get
            eye)) := by
  constructor
  · intro h
    have e : renderSceneCallsIn (Globals.ofStereoMode .Mono) sampleApp sampleDevice ovrEye_Right =
        [{ projection := sampleApp._eyeProjections.get ovrEye_Right,
           headPose := ovr.toGlm (sampleDevice.eyePoses.get ovrEye_Left), isLeft := true }] := rfl
    have h' := h ovrEye_Right _ (by rw [e]; exact List.mem_singleton_self _)
    exact toGlm_sample_ne h'
  · intro h
    have e : renderSceneCallsIn (Globals.ofStereoMode .Inverted) sampleApp sampleDevice
        ovrEye_Left =
        [{ projection := sampleApp._eyeProjections.get ovrEye_Right,
           headPose := ovr.toGlm (sampleDevice.eyePoses.get ovrEye_Right), isLeft := false }] := rfl
    have h' := h ovrEye_Left _ (by rw [e]; exact List.mem_singleton_self _)
    exact toGlm_sample_ne h'.symm

/-- C11, amended: for every state of the flags, so in every mode, and for
every eye, rendered or not, RenderPose[eye] after draw is the queried pose
eyePoses[eye].  The pose passed to the scene renderer in a call made under
the viewport of an eye is RenderPose[eye] in Stereo, LeftOnly and RightOnly
mode, RenderPose of the left eye under both viewports in Mono mode, and
RenderPose of the other eye in Inverted mode. -/
theorem C11_render_pose_is_queried_pose {K : Type} [Field K] (g : Globals)
    (app : RiftAppMembers K) (dev : DeviceFrame K) :
    (∀ eye : ovrEyeType,
      (RiftApp.draw g app dev).1.RenderPose.get eye = dev.eyePoses.get eye) ∧
    (∀ (m : StereoMode) (eye : ovrEyeType) (c : RenderSceneCall K),
      stereoMode g = some m → c ∈ renderSceneCallsIn g app dev eye →
      match m with
      | .Stereo | .LeftOnly | .RightOnly =>
          c.headPose = ovr.toGlm ((RiftApp.draw g app dev).1.RenderPose.get eye)
      | .Mono =>
          c.headPose = ovr.toGlm ((RiftApp.draw g app dev).1.RenderPose.get ovrEye_Left)
      | .Inverted =>
          c.headPose = ovr.toGlm ((RiftApp.draw g app dev).1.RenderPose.get eye.other)) := by
  rw [draw_RenderPose]
  refine ⟨fun _ => rfl, ?_⟩
  intro m eye c hm hc
  obtain ⟨f1, f2, f3, f4, f5⟩ := stereoMode_flags g m hm
  unfold renderSceneCallsIn at hc
  rw [renderSceneCalls_eq] at hc
  cases m <;> cases eye <;>
    simp [drawEyeScene, f1, f2, f3, f4, f5, renderSceneCallsFrom] at hc <;>
    subst hc <;> simp [ovrEyeType.other]

/-- Witness of the amended C11: the recorded pose of the right eye, which is
not rendered, in LeftOnly mode, and the call under the right viewport in
Mono mode. -/
theorem C11_render_pose_is_queried_pose_witness :
    renderSceneCallsIn (Globals.ofStereoMode .LeftOnly) sampleApp sampleDevice ovrEye_Right = [] ∧
    (RiftApp.draw (Globals.ofStereoMode .LeftOnly) sampleApp sampleDevice).1.RenderPose.get
      ovrEye_Right = sampleDevice.eyePoses.get ovrEye_Right ∧
    stereoMode (Globals.ofStereoMode .Mono) = some .Mono ∧
    monoRightCall ∈ renderSceneCallsIn (Globals.ofStereoMode .Mono) sampleApp sampleDevice
      ovrEye_Right ∧
    (RiftApp.draw (Globals.ofStereoMode .Mono) sampleApp sampleDevice).1.RenderPose.get
      ovrEye_Right = sampleDevice.eyePoses.get ovrEye_Right ∧
    monoRightCall.headPose = ovr.toGlm
      ((RiftApp.draw (Globals.ofStereoMode .Mono) sampleApp sampleDevice).1.RenderPose.get
        ovrEye_Left) :=
  ⟨rfl,
   (C11_render_pose_is_queried_pose (Globals.ofStereoMode .LeftOnly) sampleApp sampleDevice).1
      ovrEye_Right,
   rfl, List.mem_singleton_self monoRightCall,
   (C11_render_pose_is_queried_pose (Globals.ofStereoMode .Mono) sampleApp sampleDevice).1
      ovrEye_Right,
   (C11_render_pose_is_queried_pose (Globals.ofStereoMode .Mono) sampleApp sampleDevice).2
      .Mono ovrEye_Right monoRightCall rfl (List.mem_singleton_self monoRightCall)⟩

end LevelsOfImmersion
